import Mathlib

/-!
Shallow embedding of the URL-analysis pipeline
(repository: ai_scenario_url_web_analysis_llm).

The embedding models, faithfully to the Python source:
  * `src/llm_planning.py` — pattern compilation (`_compile_core_type_patterns`),
    URL classification (`_classify_candidate_urls`), home-host derivation
    (`_get_home_host`), selection post-processing (`_optimize_crawl_strategy`),
    and the per-year planning loop of `generate_llm_planning`;
  * `src/url_processing.py` — link discovery (`discover_internal_links`),
    host extraction (`_extract_home_host`), URL inclusion filtering
    (`_should_include_url`);
  * `src/scenario_analyzer.py` — the per-year loop of
    `analyze_scenarios_for_company`.

Python strings are `String`, Python lists are `List`, Python dicts keyed by
year are insertion-ordered association lists.  The regular expressions that
the source builds (via `re.escape` plus a wildcard substitution, or literal
patterns such as `^/$` and the exclusion patterns) fall into a tiny regex
dialect — literals, escaped literals, `.`, postfix `*`, `^`, `$` — for which
a complete matcher is defined below, with Python `re.match` (anchored prefix
search) and `re.search` semantics.  External collaborators (OpenAI chat
calls, HTTP fetches, BeautifulSoup, `urllib.parse.urljoin`) are parameters
of the embedded functions; `urllib.parse.urlparse` and `re.escape` are
embedded concretely because the classifier depends on their exact output.
-/

/-! ## Basic string machinery (Python `str` operations) -/

/-- Characters that Python 3.7+ `re.escape` prefixes with a backslash. -/
def pyReEscapeSpecials : List Char :=
  ['(', ')', '[', ']', '\x7b', '\x7d', '?', '*', '+', '-', '|', '^', '$',
   '\\', '.', '&', '~', '#', ' ', '\t', '\n', '\r', '\x0b', '\x0c']

/-- Python `re.escape`: put a backslash before every special character. -/
def reEscape (s : String) : String :=
  String.mk (s.data.foldr
    (fun c acc => if pyReEscapeSpecials.contains c then '\\' :: c :: acc else c :: acc) [])

/-- Fuelled worker for `replaceAll`; one unit of fuel per character consumed,
so `s.length` fuel always suffices. -/
def replaceAllFuel (pat rep : List Char) : Nat → List Char → List Char
  | 0, s => s
  | _ + 1, [] => []
  | fuel + 1, c :: rest =>
    if pat ≠ [] ∧ pat.isPrefixOf (c :: rest) then
      rep ++ replaceAllFuel pat rep fuel ((c :: rest).drop pat.length)
    else
      c :: replaceAllFuel pat rep fuel rest

/-- Python `str.replace(pat, rep)` — every non-overlapping occurrence,
scanning left to right. -/
def replaceAll (s pat rep : String) : String :=
  String.mk (replaceAllFuel pat.data rep.data s.data.length s.data)

/-- Python `str.replace(pat, rep, 1)` — first occurrence only. -/
def replaceFirstList (pat rep : List Char) : List Char → List Char
  | [] => []
  | c :: rest =>
    if pat ≠ [] ∧ pat.isPrefixOf (c :: rest) then
      rep ++ (c :: rest).drop pat.length
    else
      c :: replaceFirstList pat rep rest

/-- Python `str.replace(pat, rep, 1)` on `String`. -/
def replaceFirstStr (s pat rep : String) : String :=
  String.mk (replaceFirstList pat.data rep.data s.data)

/-- Substring test on character lists (Python `pat in s`). -/
def listContainsSub (pat : List Char) : List Char → Bool
  | [] => pat.isEmpty
  | c :: rest => pat.isPrefixOf (c :: rest) || listContainsSub pat rest

/-- Python `pat in s` for strings. -/
def strContains (s pat : String) : Bool := listContainsSub pat.data s.data

/-- Python `s.startswith(p)`. -/
def strStartsWith (s p : String) : Bool := p.data.isPrefixOf s.data

/-- Python `s.lower()` (ASCII case folding, enough for URLs). -/
def lowerStr (s : String) : String := String.mk (s.data.map Char.toLower)

/-- Python `s.strip()` — drop leading and trailing whitespace. -/
def pyStrip (s : String) : String :=
  String.mk (((s.data.dropWhile Char.isWhitespace).reverse.dropWhile Char.isWhitespace).reverse)

/-- Split a character list at the first occurrence of `c`; `none` when `c`
is absent (the separator itself is consumed). -/
def splitAtFirstChar (c : Char) : List Char → Option (List Char × List Char)
  | [] => none
  | d :: rest =>
    if d = c then some ([], rest)
    else
      match splitAtFirstChar c rest with
      | none => none
      | some (b, a) => some (d :: b, a)

/-! ## The regex dialect produced by the source

`_compile_core_type_patterns` builds regexes out of `re.escape` output, the
substitution `.replace(r"\\*", ".*")` and the literal `r"^/$"`;
`_should_include_url` uses hand-written patterns such as `\.pdf$`, `/legal/`,
`#`.  Every one of these is a sequence of (escaped) literal characters, `.`,
a postfix `*`, `^` and `$`, so the dialect below is complete for the
repository. -/

/-- A regex atom: a literal character or `.` (any character except newline). -/
inductive RAtom
  | lit (c : Char)
  | dot
deriving DecidableEq, Repr

/-- A regex token: an atom, a starred atom, `^`, or `$`. -/
inductive RTok
  | atom (a : RAtom)
  | star (a : RAtom)
  | caret
  | dollar
deriving DecidableEq, Repr

/-- Tokenizer for the dialect; `none` models `re.error` (for example a `*`
with nothing to repeat), which `_compile_core_type_patterns` catches and
skips. -/
def parseRegexLoop : List Char → List RTok → Option (List RTok)
  | [], acc => some acc.reverse
  | '\\' :: rest, acc =>
    match rest with
    | [] => none
    | c :: rest2 => parseRegexLoop rest2 (.atom (.lit c) :: acc)
  | '*' :: rest, acc =>
    match acc with
    | .atom a :: acc2 => parseRegexLoop rest (.star a :: acc2)
    | _ => none
  | '.' :: rest, acc => parseRegexLoop rest (.atom .dot :: acc)
  | '^' :: rest, acc => parseRegexLoop rest (.caret :: acc)
  | '$' :: rest, acc => parseRegexLoop rest (.dollar :: acc)
  | c :: rest, acc => parseRegexLoop rest (.atom (.lit c) :: acc)

/-- Parse a regex source string into tokens. -/
def parseRegex (s : String) : Option (List RTok) := parseRegexLoop s.data []

/-- Does atom `a` match character `c`?  `ci` is `re.IGNORECASE`. -/
def charMatch (ci : Bool) : RAtom → Char → Bool
  | .dot, c => !(c == '\n')
  | .lit l, c => if ci then l.toLower == c.toLower else l == c

/-- All proper suffixes of `s` reachable by consuming one or more copies of
atom `a` (used to run a starred atom with backtracking). -/
def starTails (ci : Bool) (a : RAtom) : List Char → List (List Char)
  | [] => []
  | c :: s => if charMatch ci a c then s :: starTails ci a s else []

/-- Token-list matcher: does the token list match some prefix of `s`?
`atStart` records whether position 0 of the subject string has been consumed
past (for `^`).  Matching a prefix is exactly Python `re.match` semantics. -/
def rmatch (ci : Bool) : List RTok → Bool → List Char → Bool
  | [], _, _ => true
  | .caret :: ts, atStart, s => atStart && rmatch ci ts atStart s
  | .dollar :: ts, atStart, s => s.isEmpty && rmatch ci ts atStart s
  | .atom a :: ts, _, s =>
    match s with
    | [] => false
    | c :: s1 => charMatch ci a c && rmatch ci ts false s1
  | .star a :: ts, atStart, s =>
    rmatch ci ts atStart s || (starTails ci a s).any (fun s1 => rmatch ci ts false s1)

/-- Python `regex.match(s)` as a Boolean, with `re.IGNORECASE` (the flag the
pattern compiler always passes). -/
def reMatch (toks : List RTok) (s : String) : Bool := rmatch true toks true s.data

/-- Worker for `reSearch`: try to match at each start position. -/
def reSearchAux (ci : Bool) (toks : List RTok) : Bool → List Char → Bool
  | atStart, s =>
    rmatch ci toks atStart s ||
      match s with
      | [] => false
      | _ :: s1 => reSearchAux ci toks false s1

/-- Python `re.search(pattern, s)` as a Boolean (case-sensitive, as used by
`_should_include_url`). -/
def reSearch (toks : List RTok) (s : String) : Bool := reSearchAux false toks true s.data

/-! ## Pattern Compiler (`LLMPlanner._compile_core_type_patterns`) -/

/-- One page type of the taxonomy: `{"type_name": ..., "typical_url_patterns": [...]}`. -/
structure PageType where
  type_name : String
  typical_url_patterns : List String
deriving DecidableEq, Repr

/-- One compiled matcher — the tuple `(stage, type_name, regex, len(raw_pat))`
that `_compile_core_type_patterns` appends, keeping the regex both as source
text and as parsed tokens. -/
structure CompiledMatcher where
  stage : String
  type_name : String
  regexSrc : String
  toks : List RTok
  specificity : Nat
deriving DecidableEq, Repr

/-- The regex source string built for one raw taxonomy pattern:
`r"^/$"` for the root pattern, otherwise
`re.escape(raw_pat).replace(r"\\*", ".*")`.  Note that the replace target is
the three-character string backslash-backslash-star, exactly as the raw
string literal `r"\\*"` denotes in the source. -/
def compilePatternRegex (rawPat : String) : String :=
  if pyStrip rawPat = "/" then "^/$"
  else replaceAll (reEscape rawPat) "\\\\*" ".*"

/-- The matcher list in taxonomy encounter order (stage by stage, type by
type, pattern by pattern), dropping patterns whose regex fails to compile. -/
def compileEntries (nested : List (String × List PageType)) : List CompiledMatcher :=
  nested.flatMap (fun sp =>
    sp.2.flatMap (fun t =>
      t.typical_url_patterns.filterMap (fun raw =>
        match parseRegex (compilePatternRegex raw) with
        | some toks =>
          some { stage := sp.1, type_name := t.type_name,
                 regexSrc := compilePatternRegex raw, toks := toks,
                 specificity := raw.length }
        | none => none)))

/-- Stable insertion into a specificity-descending list: the new element goes
in front of the first element whose specificity is `≤` its own, i.e. after
all strictly more specific matchers but before equal ones inserted later.
Together with `sortBySpecDesc` this is the unique stable descending sort,
hence the embedding of Python `compiled.sort(key=lambda x: -x[3])`. -/
def insertDesc (x : CompiledMatcher) : List CompiledMatcher → List CompiledMatcher
  | [] => [x]
  | y :: ys => if y.specificity ≤ x.specificity then x :: y :: ys else y :: insertDesc x ys

/-- Stable sort by specificity descending (Python list.sort with key `-len`). -/
def sortBySpecDesc : List CompiledMatcher → List CompiledMatcher
  | [] => []
  | x :: xs => insertDesc x (sortBySpecDesc xs)

/-- `_compile_core_type_patterns`: compile every taxonomy pattern, then sort
the global matcher list by specificity descending (stable). -/
def compileCoreTypePatterns (nested : List (String × List PageType)) : List CompiledMatcher :=
  sortBySpecDesc (compileEntries nested)

/-- Compile one raw pattern the way the planner does and run the resulting
regex against a path with `regex.match` semantics; `false` when the pattern
fails to compile (such a pattern is skipped by the compiler). -/
def patternMatches (rawPat path : String) : Bool :=
  match parseRegex (compilePatternRegex rawPat) with
  | some toks => reMatch toks path
  | none => false

/-! ## URL Normalizer (`urllib.parse.urlparse` plus the wayback unwrapping) -/

/-- Result of `urllib.parse.urlparse` restricted to the three components the
source reads: `netloc`, `path`, `query`. -/
structure UrlParts where
  netloc : String
  path : String
  query : String
deriving DecidableEq, Repr

/-- A character CPython accepts inside a URL scheme. -/
def isSchemeChar (c : Char) : Bool := c.isAlphanum || c == '+' || c == '-' || c == '.'

/-- CPython `urlsplit` scheme removal: when the text before the first `:` is
a non-empty valid scheme starting with a letter, drop it (and the colon). -/
def schemeSplit (cs : List Char) : List Char :=
  match splitAtFirstChar ':' cs with
  | none => cs
  | some (before, after) =>
    if before ≠ [] ∧ (before.headD ' ').isAlpha ∧ before.all isSchemeChar
    then after else cs

/-- `urllib.parse.urlparse`, faithful on absolute `http(s)` URLs: strip the
scheme, read the netloc after `//` up to the next `/`, `?` or `#`, then split
off the fragment at the first `#` and the query at the first `?`. -/
def urlparseSimple (url : String) : UrlParts :=
  let cs := schemeSplit url.data
  let netlocSplit :=
    if ['/', '/'].isPrefixOf cs then
      let body := cs.drop 2
      (body.takeWhile (fun c => !(c == '/' || c == '?' || c == '#')),
       body.dropWhile (fun c => !(c == '/' || c == '?' || c == '#')))
    else (([] : List Char), cs)
  let rest2 :=
    match splitAtFirstChar '#' netlocSplit.2 with
    | none => netlocSplit.2
    | some (b, _) => b
  let pathQuery :=
    match splitAtFirstChar '?' rest2 with
    | none => (rest2, ([] : List Char))
    | some (b, a) => (b, a)
  { netloc := String.mk netlocSplit.1,
    path := String.mk pathQuery.1,
    query := String.mk pathQuery.2 }

/-- Consume a literal character sequence, returning the remainder. -/
def matchLit : List Char → List Char → Option (List Char)
  | [], s => some s
  | _ :: _, [] => none
  | c :: cs, d :: s => if c = d then matchLit cs s else none

/-- Try the literal alternatives `http://` and `https://` (the regex piece
`https?://`); at any fixed position at most one can apply. -/
def schemeSlashes (s : List Char) : Option (List Char × List Char) :=
  match matchLit "http://".data s with
  | some rest => some ("http://".data, rest)
  | none =>
    match matchLit "https://".data s with
    | some rest => some ("https://".data, rest)
    | none => none

/-- One attempt of `re.search(r"/web/\d+/(https?://.*)", url)` at a fixed
start position: literal `/web/`, one or more digits, `/`, then the capture
group starting at the scheme and running to the end of line. -/
def waybackHere (s : List Char) : Option (List Char) :=
  match matchLit "/web/".data s with
  | none => none
  | some s1 =>
    if s1.takeWhile Char.isDigit = [] then none
    else
      match matchLit ['/'] (s1.dropWhile Char.isDigit) with
      | none => none
      | some s2 =>
        match schemeSlashes s2 with
        | some _ => some (s2.takeWhile (fun c => !(c == '\n')))
        | none => none

/-- Leftmost-position `re.search(r"/web/\d+/(https?://.*)", ...)`, returning
the capture group. -/
def extractWayback : List Char → Option (List Char)
  | [] => none
  | c :: rest =>
    match waybackHere (c :: rest) with
    | some g => some g
    | none => extractWayback rest

/-- One attempt of `re.search(r"/web/\d+/(https?://[^/]+)", url)` at a fixed
start position; the `[^/]+` run must be non-empty. -/
def waybackHostHere (s : List Char) : Option (List Char) :=
  match matchLit "/web/".data s with
  | none => none
  | some s1 =>
    if s1.takeWhile Char.isDigit = [] then none
    else
      match matchLit ['/'] (s1.dropWhile Char.isDigit) with
      | none => none
      | some s2 =>
        match schemeSlashes s2 with
        | some (marker, rest) =>
          let run := rest.takeWhile (fun c => !(c == '/'))
          if run = [] then none else some (marker ++ run)
        | none => none

/-- Leftmost-position `re.search(r"/web/\d+/(https?://[^/]+)", ...)`,
returning the capture group. -/
def extractWaybackHost : List Char → Option (List Char)
  | [] => none
  | c :: rest =>
    match waybackHostHere (c :: rest) with
    | some g => some g
    | none => extractWaybackHost rest

/-- The "repair the common `http:/` and `https:/` malformation" block that
appears (verbatim, with `.replace(..., 1)`) in `_classify_candidate_urls`,
`_get_home_host` and `_extract_home_host`. -/
def repairSchemeFirst (u : String) : String :=
  let u1 :=
    if strStartsWith u "http:/" ∧ ¬ strStartsWith u "http://"
    then replaceFirstStr u "http:/" "http://" else u
  if strStartsWith u1 "https:/" ∧ ¬ strStartsWith u1 "https://"
  then replaceFirstStr u1 "https:/" "https://" else u1

/-- Python `host.split(":")[0]` guarded by `if ":" in host`. -/
def stripPort (h : String) : String :=
  if strContains h ":" then String.mk (h.data.takeWhile (fun c => !(c == ':'))) else h

/-- Python `host[4:]` guarded by `if host.startswith("www.")`. -/
def stripWww (h : String) : String :=
  if strStartsWith h "www." then String.mk (h.data.drop 4) else h

/-- `URLProcessor._extract_home_host` (src/url_processing.py), whose body is
line-for-line identical to `LLMPlanner._get_home_host` (src/llm_planning.py):
lowercased netloc; when it contains `web.archive.org`, re-extract the
underlying host with `re.search(r"/web/\d+/(https?://[^/]+)", url)` (and the
scheme repair, which is unreachable because the regex already demands `://`);
then strip a port and a leading `www.`. -/
def extractHomeHost (url : String) : String :=
  let host0 := lowerStr (urlparseSimple url).netloc
  let host1 :=
    if strContains host0 "web.archive.org" then
      match extractWaybackHost url.data with
      | some g => lowerStr (urlparseSimple (repairSchemeFirst (String.mk g))).netloc
      | none => host0
    else host0
  stripWww (stripPort host1)

/-- `LLMPlanner._get_home_host` — see `extractHomeHost`. -/
def getHomeHost (homepageUrl : String) : String := extractHomeHost homepageUrl

/-! ## URL Classifier (`LLMPlanner._classify_candidate_urls`) -/

/-- The per-URL extraction step of `_classify_candidate_urls`: returns
`(candidate_host, real_part)`.  For a `web.archive.org` URL the embedded
original URL is extracted (when the extraction regex matches) and its host is
lowercased, port-stripped and `www.`-stripped; otherwise the URL is parsed
directly and the netloc is only lowercased.  The path defaults to `/` and the
query, when non-empty, is appended after `?`. -/
def urlRealParts (url : String) : String × String :=
  if strContains url "web.archive.org" then
    match extractWayback url.data with
    | some g =>
      let p := urlparseSimple (repairSchemeFirst (String.mk g))
      let candidateHost := stripWww (stripPort (lowerStr p.netloc))
      let rp0 := if p.path = "" then "/" else p.path
      (candidateHost, if p.query ≠ "" then rp0 ++ "?" ++ p.query else rp0)
    | none => ("", url)
  else
    let p := urlparseSimple url
    let rp0 := if p.path = "" then "/" else p.path
    (lowerStr p.netloc, if p.query ≠ "" then rp0 ++ "?" ++ p.query else rp0)

/-- An entry of the classifier result:
`{'url': ..., 'customer_journey_stage': ..., 'type_name': ...}`. -/
structure ClassifiedLink where
  url : String
  customer_journey_stage : String
  type_name : String
deriving DecidableEq, Repr

/-- `home_host = "" if not homepage_url else self._get_home_host(homepage_url)`. -/
def deriveHomeHost (homepageUrl : String) : String :=
  if homepageUrl = "" then "" else getHomeHost homepageUrl

/-- The loop body of `_classify_candidate_urls` for one URL: apply the
cross-domain filter, then walk the matcher list and append the first match. -/
def classifyStep (compiled : List CompiledMatcher) (homeHost : String)
    (results : List ClassifiedLink) (url : String) : List ClassifiedLink :=
  let parts := urlRealParts url
  if homeHost ≠ "" ∧ parts.1 ≠ "" ∧ parts.1 ≠ homeHost ∧ parts.1 ≠ "www." ++ homeHost then
    results
  else
    match compiled.find? (fun m => reMatch m.toks parts.2) with
    | some m => results ++ [{ url := url, customer_journey_stage := m.stage,
                              type_name := m.type_name }]
    | none => results

/-- `_classify_candidate_urls(year, valid_links, homepage_url)` — the year
argument is used only for logging and is omitted. -/
def classifyCandidateUrls (compiled : List CompiledMatcher) (validLinks : List String)
    (homepageUrl : String) : List ClassifiedLink :=
  validLinks.foldl (classifyStep compiled (deriveHomeHost homepageUrl)) []

/-- The classification a single URL receives (used to state first-match-wins
as a per-link function): `none` when the cross-domain filter drops the link
or no matcher matches. -/
def classifyOne (compiled : List CompiledMatcher) (homeHost : String)
    (url : String) : Option ClassifiedLink :=
  let parts := urlRealParts url
  if homeHost ≠ "" ∧ parts.1 ≠ "" ∧ parts.1 ≠ homeHost ∧ parts.1 ≠ "www." ++ homeHost then
    none
  else
    (compiled.find? (fun m => reMatch m.toks parts.2)).map
      (fun m => { url := url, customer_journey_stage := m.stage, type_name := m.type_name })

/-- The mutable state of `LLMPlanner` that `_classify_candidate_urls` can
see: the compiled pattern list (the method reads it and writes nothing). -/
structure PlannerState where
  compiledPatterns : List CompiledMatcher
deriving DecidableEq, Repr

/-- `_classify_candidate_urls` as a method: state in, state out, plus the
result list.  The body only reads `self._compiled_patterns`. -/
def classifyMethod (s : PlannerState) (_year : String) (validLinks : List String)
    (homepageUrl : String) : PlannerState × List ClassifiedLink :=
  (s, classifyCandidateUrls s.compiledPatterns validLinks homepageUrl)

/-! ## Selection Postprocessor (`LLMPlanner._optimize_crawl_strategy`) -/

/-- Python `list(dict.fromkeys(l))`: deduplicate preserving first-seen order. -/
def dedupPreserve (l : List String) : List String :=
  l.foldl (fun acc u => if u ∈ acc then acc else acc ++ [u]) []

/-- The candidate loop of `_optimize_crawl_strategy`: with membership
enforcement only candidates present in `valid_content_urls` are kept. -/
def filteredCandidates (enforce : Bool) (candidates validUrls : List String) : List String :=
  if enforce then candidates.filter (fun u => decide (u ∈ validUrls)) else candidates

/-- The analysis-result dictionary `_optimize_crawl_strategy` returns, field
for field (`core_url_details` keeps the raw candidate URL list that stood in
`core_url_recommendations`). -/
structure AnalysisResult where
  analysis_time : String
  using_real_llm : Bool
  llm_model : String
  year : String
  discovered_links_count : Nat
  valid_content_urls_count : Nat
  recommended_crawl_pages : List String
  recommended_pages_count : Nat
  recommended_in_valid_overlap : Nat
  enforce_recommended_in_valid : Bool
  core_url_details : List String
deriving DecidableEq, Repr

/-- The keys of the dictionary literal that `_optimize_crawl_strategy`
builds (src/llm_planning.py lines 431-443), in source order. -/
def analysisResultKeys : List String :=
  ["analysis_time", "using_real_llm", "llm_model", "year",
   "discovered_links_count", "valid_content_urls_count",
   "recommended_crawl_pages", "recommended_pages_count",
   "recommended_in_valid_overlap", "enforce_recommended_in_valid_list",
   "core_url_details"]

/-- `_optimize_crawl_strategy(llm_analysis, valid_content_urls, year,
enforce_in_valid)`: keep (optionally membership-filtered) candidates,
deduplicate preserving order, count the overlap with `valid_content_urls`,
and when the list came out empty fall back to the first 10 valid URLs (the
fallback is only logged, not recorded).  `now` stands for
`datetime.now().strftime(...)`. -/
def optimizeCrawlStrategy (candidates validUrls : List String) (year : String)
    (enforceInValid : Option Bool) (now : String) : AnalysisResult :=
  let enforce := enforceInValid.getD true
  let recommended := dedupPreserve (filteredCandidates enforce candidates validUrls)
  let overlap := (recommended.filter (fun u => decide (u ∈ validUrls))).length
  let finalPages := if recommended = [] then validUrls.take 10 else recommended
  { analysis_time := now, using_real_llm := true,
    llm_model := "openai/gpt-4o-mini", year := year,
    discovered_links_count := validUrls.length,
    valid_content_urls_count := validUrls.length,
    recommended_crawl_pages := finalPages,
    recommended_pages_count := finalPages.length,
    recommended_in_valid_overlap := overlap,
    enforce_recommended_in_valid := enforce,
    core_url_details := candidates }

/-! ## Checkpoint loops

`generate_llm_planning` (src/llm_planning.py) and
`analyze_scenarios_for_company` (src/scenario_analyzer.py) both iterate over
periods, skip a period already present in the loaded document, and run the
period's transition inside `try/except`.  The transitions (LLM calls, page
fetches) are parameters of type `... → Except String α`: `Except.error`
models a raised exception.  Each loop also counts how many times the
transition is invoked, to state the resume ("zero calls") properties. -/

/-- The planning document `_write_planning_file` dumps
(`agent_version`, `company_url`, `export_time`, `yearly_analysis_results`). -/
structure PlanningDoc (V : Type) where
  agent_version : String
  company_url : String
  export_time : String
  yearly_analysis_results : List (String × V)
deriving DecidableEq, Repr

/-- `_write_planning_file(output_file, company_url, yearly_analysis)` with
`now` standing for `datetime.now().strftime(...)`. -/
def writePlanningFile {V : Type} (now company : String)
    (yearly : List (String × V)) : PlanningDoc V :=
  { agent_version := "LLM_Planner_v1.0", company_url := company,
    export_time := now, yearly_analysis_results := yearly }

/-- The per-year loop of `generate_llm_planning`: skip a year already in
`yearly_analysis`; otherwise run the classify/select/optimize transition;
on success store its result, on exception store nothing (the year is left
for the next run).  Returns the final map and the transition-call count. -/
def planningLoop {V : Type} (step : String → List String → Except String V) :
    List (String × List String) → List (String × V) → Nat → List (String × V) × Nat
  | [], yearly, calls => (yearly, calls)
  | (year, links) :: rest, yearly, calls =>
    if (yearly.lookup year).isSome then planningLoop step rest yearly calls
    else
      match step year links with
      | .ok v => planningLoop step rest (yearly ++ [(year, v)]) (calls + 1)
      | .error _ => planningLoop step rest yearly (calls + 1)

/-- `generate_llm_planning`: run the per-year loop starting from the loaded
existing results, then write the final planning document (the code's last
`_write_planning_file` call, which refreshes `export_time`). -/
def generateLlmPlanning {V : Type} (step : String → List String → Except String V)
    (yearLinksMap : List (String × List String)) (existing : List (String × V))
    (now company : String) : PlanningDoc V × Nat :=
  let r := planningLoop step yearLinksMap existing 0
  (writePlanningFile now company r.1, r.2)

/-- One year's record in the scenario document.  On success the code stores
the identified scenario list and its count (plus timing fields not modelled);
in the `except` branch it stores
`{"identified_scenarios": [], "total_scenario_count": 0, "error": str(e)}`. -/
structure ScenRec where
  identified_scenarios : List String
  total_scenario_count : Nat
  error : Option String
deriving DecidableEq, Repr

/-- The per-year loop of `analyze_scenarios_for_company`: skip a year already
present; skip (without any record) a year with no recommended URLs; otherwise
run the tagging transition — on success store the scenarios, on exception
store an error record under the same year key.  Returns the final map and
the transition-call count. -/
def scenLoop (step : String → List String → Except String (List String)) :
    List (String × List String) → List (String × ScenRec) → Nat →
      List (String × ScenRec) × Nat
  | [], data, calls => (data, calls)
  | (year, crawlUrls) :: rest, data, calls =>
    if (data.lookup year).isSome then scenLoop step rest data calls
    else if crawlUrls = [] then scenLoop step rest data calls
    else
      match step year crawlUrls with
      | .ok scen =>
        scenLoop step rest
          (data ++ [(year, { identified_scenarios := scen,
                             total_scenario_count := scen.length, error := none })])
          (calls + 1)
      | .error e =>
        scenLoop step rest
          (data ++ [(year, { identified_scenarios := [],
                             total_scenario_count := 0, error := some e })])
          (calls + 1)

/-! ## Link discovery (`URLProcessor.discover_internal_links`) -/

/-- The exclusion patterns of `URLProcessor.__init__`, verbatim. -/
def excludePatternList : List String :=
  ["\\.pdf$", "\\.jpg$", "\\.png$", "\\.gif$", "\\.css$", "\\.js$",
   "/legal/", "/privacy/", "/terms/", "/cookie",
   "/sitemap", "/robots", "/favicon", "mailto:", "tel:",
   "#", "javascript:"]

/-- `_should_include_url`: the lowercased URL must hit none of the exclusion
patterns under `re.search`. -/
def shouldIncludeUrl (url : String) : Bool :=
  let urlLower := lowerStr url
  excludePatternList.all (fun pat =>
    match parseRegex pat with
    | some toks => !(reSearch toks urlLower)
    | none => true)

/-- The per-href processing of the `discover_internal_links` loop, up to the
decision whether a cleaned URL is to be inserted.  `uj` models
`urllib.parse.urljoin(homepage_url, href)` (an external library call).  An
empty href is skipped; the joined URL gets the wayback `http:/` malformation
repaired (`str.replace`, all occurrences); a URL whose extracted host is
neither empty nor `home_host` is dropped; the fragment is cut at the first
`#`; finally `_should_include_url` screens the cleaned URL. -/
def discoverCandidate (homeHost : String) (uj : String → String)
    (href : String) : Option String :=
  if href = "" then none
  else
    let full0 := uj href
    let full1 :=
      if strContains full0 "/web/" ∧ strContains full0 "http:/" ∧
          ¬ strContains full0 "http://"
      then replaceAll full0 "http:/" "http://" else full0
    let full :=
      if strContains full1 "/web/" ∧ strContains full1 "https:/" ∧
          ¬ strContains full1 "https://"
      then replaceAll full1 "https:/" "https://" else full1
    let candidateHost := extractHomeHost full
    if candidateHost = "" ∨ candidateHost = homeHost then
      let clean := String.mk (full.data.takeWhile (fun c => !(c == '#')))
      if shouldIncludeUrl clean then some clean else none
    else none

/-- The href loop of `discover_internal_links`.  `acc` models the
`discovered_links` set as an insertion-ordered list (the claims proved below
do not depend on Python set iteration order).  Accepted URLs are inserted if
new, and the loop stops once `max_links` distinct links are collected. -/
def discoverLoop (homeHost : String) (uj : String → String) (maxLinks : Nat) :
    List String → List String → List String
  | [], acc => acc
  | href :: rest, acc =>
    match discoverCandidate homeHost uj href with
    | none => discoverLoop homeHost uj maxLinks rest acc
    | some clean =>
      let acc2 := if clean ∈ acc then acc else acc ++ [clean]
      if maxLinks ≤ acc2.length then acc2
      else discoverLoop homeHost uj maxLinks rest acc2

/-- `discover_internal_links(homepage_url, max_links)`.  `fetched` models the
outcome of `session.get` / `raise_for_status` / `BeautifulSoup` href
extraction: `Except.error` is any exception raised while fetching or parsing
the homepage, `Except.ok hrefs` the extracted href attributes.  The whole
body sits in `try/except`; the handler returns `[homepage_url]`. -/
def discoverInternalLinks (uj : String → String)
    (fetched : Except String (List String)) (homepageUrl : String)
    (maxLinks : Nat) : List String :=
  match fetched with
  | .error _ => [homepageUrl]
  | .ok hrefs => discoverLoop (extractHomeHost homepageUrl) uj maxLinks hrefs [homepageUrl]

/-! ## Concrete fixtures used by the test-property theorems -/

/-- A two-pattern taxonomy exercising the specificity tie-break: a wildcard
product pattern and a longer literal pattern for one featured product page. -/
def demoTaxonomy : List (String × List PageType) :=
  [("Consideration Stage",
     [{ type_name := "Product Listing", typical_url_patterns := ["/product/*"] }]),
   ("Decision Stage",
     [{ type_name := "Featured Product", typical_url_patterns := ["/product/featured"] }])]

/-- Twenty distinct valid URLs `u1 .. u20`. -/
def validTwenty : List String :=
  ["u1", "u2", "u3", "u4", "u5", "u6", "u7", "u8", "u9", "u10",
   "u11", "u12", "u13", "u14", "u15", "u16", "u17", "u18", "u19", "u20"]

/-! ## Helper lemmas -/

/-- The loop body of the classifier contributes exactly the per-URL
classification of `classifyOne`, appended to the accumulator. -/
theorem classifyStep_eq_toList (compiled : List CompiledMatcher) (hh : String)
    (acc : List ClassifiedLink) (url : String) :
    classifyStep compiled hh acc url = acc ++ (classifyOne compiled hh url).toList := by
  simp only [classifyStep, classifyOne]
  split
  · simp
  · cases h : (compiled.find? fun m => reMatch m.toks (urlRealParts url).2) <;> simp [h]

/-- Unfolding the classifier fold into a `filterMap`. -/
theorem foldl_classifyStep (compiled : List CompiledMatcher) (hh : String) :
    ∀ (links : List String) (acc : List ClassifiedLink),
      links.foldl (classifyStep compiled hh) acc
        = acc ++ links.filterMap (classifyOne compiled hh)
  | [], acc => by simp
  | u :: rest, acc => by
    rw [List.foldl_cons, classifyStep_eq_toList, foldl_classifyStep compiled hh rest]
    cases h : classifyOne compiled hh u <;> simp [h]

/-- `_classify_candidate_urls` is the `filterMap` of the per-URL
classification over the link list. -/
theorem classifyCandidateUrls_eq_filterMap (compiled : List CompiledMatcher)
    (links : List String) (homepageUrl : String) :
    classifyCandidateUrls compiled links homepageUrl
      = links.filterMap (classifyOne compiled (deriveHomeHost homepageUrl)) := by
  unfold classifyCandidateUrls
  rw [foldl_classifyStep]
  simp

/-- Membership in a stable insertion. -/
theorem mem_insertDesc (z x : CompiledMatcher) :
    ∀ l : List CompiledMatcher, z ∈ insertDesc x l ↔ z = x ∨ z ∈ l
  | [] => by simp [insertDesc]
  | y :: ys => by
    unfold insertDesc
    split
    · simp [List.mem_cons]
    · simp only [List.mem_cons, mem_insertDesc z x ys]
      tauto

/-- Stable insertion preserves the specificity-descending invariant. -/
theorem pairwise_insertDesc (x : CompiledMatcher) :
    ∀ l : List CompiledMatcher,
      l.Pairwise (fun a b => b.specificity ≤ a.specificity) →
      (insertDesc x l).Pairwise (fun a b => b.specificity ≤ a.specificity)
  | [], _ => by simp [insertDesc]
  | y :: ys, h => by
    rcases List.pairwise_cons.mp h with ⟨hy, hys⟩
    unfold insertDesc
    split
    · rename_i hle
      refine List.pairwise_cons.mpr ⟨?_, h⟩
      intro z hz
      rcases List.mem_cons.mp hz with rfl | hz2
      · exact hle
      · exact le_trans (hy z hz2) hle
    · rename_i hgt
      refine List.pairwise_cons.mpr ⟨?_, pairwise_insertDesc x ys hys⟩
      intro z hz
      rcases (mem_insertDesc z x ys).mp hz with rfl | hz2
      · omega
      · exact hy z hz2

/-- The compiled matcher list is sorted by specificity descending. -/
theorem pairwise_sortBySpecDesc :
    ∀ l : List CompiledMatcher,
      (sortBySpecDesc l).Pairwise (fun a b => b.specificity ≤ a.specificity)
  | [] => by simp [sortBySpecDesc]
  | x :: xs => by
    unfold sortBySpecDesc
    exact pairwise_insertDesc x _ (pairwise_sortBySpecDesc xs)

/-- Filtering one specificity class out of a stable insertion: the inserted
element lands in front of its own class and every other class is untouched
(the elements it jumps over are strictly more specific). -/
theorem filter_insertDesc (x : CompiledMatcher) (k : Nat) :
    ∀ l : List CompiledMatcher,
      (insertDesc x l).filter (fun m => m.specificity == k)
        = (if x.specificity = k then [x] else [])
            ++ l.filter (fun m => m.specificity == k)
  | [] => by
    by_cases hx : x.specificity = k <;> simp [insertDesc, List.filter_cons, hx]
  | y :: ys => by
    unfold insertDesc
    split
    · rename_i hle
      by_cases hx : x.specificity = k <;> simp [List.filter_cons, hx]
    · rename_i hgt
      simp only [List.filter_cons, filter_insertDesc x k ys]
      by_cases hx : x.specificity = k <;> by_cases hy : y.specificity = k
      · omega
      · simp [hx, hy]
      · simp [hx, hy]
      · simp [hx, hy]

/-- Stability of the specificity sort: within each specificity class the
taxonomy encounter order is preserved. -/
theorem filter_sortBySpecDesc (k : Nat) :
    ∀ l : List CompiledMatcher,
      (sortBySpecDesc l).filter (fun m => m.specificity == k)
        = l.filter (fun m => m.specificity == k)
  | [] => rfl
  | x :: xs => by
    unfold sortBySpecDesc
    rw [filter_insertDesc, filter_sortBySpecDesc k xs, List.filter_cons]
    by_cases hx : x.specificity = k <;> simp [hx]

/-- The discovery loop never loses anything already collected. -/
theorem mem_discoverLoop (homeHost : String) (uj : String → String) (maxLinks : Nat) :
    ∀ (hrefs acc : List String) (x : String), x ∈ acc →
      x ∈ discoverLoop homeHost uj maxLinks hrefs acc
  | [], _, _, hx => hx
  | href :: rest, acc, x, hx => by
    unfold discoverLoop
    cases hc : discoverCandidate homeHost uj href with
    | none => exact mem_discoverLoop homeHost uj maxLinks rest acc x hx
    | some clean =>
      by_cases hmem : clean ∈ acc
      · simp only [if_pos hmem]
        split
        · exact hx
        · exact mem_discoverLoop homeHost uj maxLinks rest acc x hx
      · simp only [if_neg hmem]
        have hacc2 : x ∈ acc ++ [clean] := List.mem_append_left _ hx
        split
        · exact hacc2
        · exact mem_discoverLoop homeHost uj maxLinks rest _ x hacc2

/-- The planning loop leaves the map and call count untouched when every
year it visits is already present. -/
theorem planningLoop_skips_present {V : Type}
    (step : String → List String → Except String V) :
    ∀ (ylm : List (String × List String)) (yearly : List (String × V)) (calls : Nat),
      (∀ p ∈ ylm, (yearly.lookup p.1).isSome) →
      planningLoop step ylm yearly calls = (yearly, calls)
  | [], _, _, _ => rfl
  | (year, links) :: rest, yearly, calls, h => by
    unfold planningLoop
    rw [if_pos (h (year, links) (List.mem_cons_self _ _))]
    exact planningLoop_skips_present step rest yearly calls
      (fun p hp => h p (List.mem_cons_of_mem _ hp))

/-! ## Claim theorems -/

/-- **C1** (code bug).  The claim says the Pattern Compiler re-expands the
wildcard `*` into `.*`, so any suffix matches after the literal prefix.  In
the code the substitution target is the raw string `r"\\*"` — two
backslashes and a star — which never occurs in `re.escape` output (escape
produces a single backslash before `*`), so the wildcard stays a literal:
the compiled regex for `/product/*` is `/product/\*`; it rejects
`/product/shoes` and accepts only paths whose ninth character is a literal
`*`.  A plain literal pattern still behaves as a case-insensitive prefix
match. -/
theorem C1_wildcard_not_expanded :
    compilePatternRegex "/product/*" = "/product/\\*" ∧
    patternMatches "/product/*" "/product/shoes" = false ∧
    patternMatches "/product/*" "/product/*special" = true ∧
    patternMatches "/product/featured" "/product/featured" = true := by
  refine ⟨by decide, by decide, by decide, by decide⟩

/-- **C2** (counterexample).  A period whose scenario-tagging transition
throws does NOT leave "no trace": `analyze_scenarios_for_company` stores an
error record (`identified_scenarios = []`, `total_scenario_count = 0`,
`error`) under the period key, and the next run's resume check therefore
skips the period (zero transition calls) instead of re-attempting it. -/
theorem C2_scenario_failure_counterexample :
    (let failStep : String → List String → Except String (List String) :=
       fun _ _ => .error "boom";
     let run1 := scenLoop failStep [("2015", ["https://e.com/a"])] [] 0;
     run1.1.lookup "2015"
         = some { identified_scenarios := [], total_scenario_count := 0,
                  error := some "boom" } ∧
       (scenLoop (fun _ _ => .ok ["s1"]) [("2015", ["https://e.com/a"])] run1.1 0).2
         = 0) := by
  decide

/-- **C2** (amended).  A planning-stage period that raises leaves no record
in the planning document and is re-attempted (and can succeed) on the next
run; but a scenario-tagging period that raises persists an error record
(empty scenario list plus the exception text) under its period key, and the
next run skips it rather than re-attempting it. -/
theorem C2_failure_checkpoint_amended
    (pstep : String → List String → Except String String)
    (sstep : String → List String → Except String (List String))
    (year : String) (links crawl : List String) (e1 e2 v : String)
    (hp : pstep year links = .error e1)
    (hs : sstep year crawl = .error e2)
    (hc : crawl ≠ []) :
    ((planningLoop pstep [(year, links)] [] 0).1.lookup year = none) ∧
    (∀ pstep2 : String → List String → Except String String,
        pstep2 year links = .ok v →
        ((planningLoop pstep2 [(year, links)]
            (planningLoop pstep [(year, links)] [] 0).1 0).1.lookup year = some v)) ∧
    ((scenLoop sstep [(year, crawl)] [] 0).1.lookup year
        = some { identified_scenarios := [], total_scenario_count := 0,
                 error := some e2 }) ∧
    (∀ sstep2 : String → List String → Except String (List String),
        (scenLoop sstep2 [(year, crawl)]
            (scenLoop sstep [(year, crawl)] [] 0).1 0).2 = 0) := by
  have hpl : planningLoop pstep [(year, links)] [] 0 = ([], 1) := by
    simp [planningLoop, hp]
  have hsl : scenLoop sstep [(year, crawl)] [] 0
      = ([(year, { identified_scenarios := [], total_scenario_count := 0,
                   error := some e2 })], 1) := by
    simp [scenLoop, hs, hc]
  refine ⟨by rw [hpl]; rfl, ?_, by rw [hsl]; simp [List.lookup], ?_⟩
  · intro pstep2 h2
    rw [hpl]
    simp [planningLoop, h2, List.lookup]
  · intro sstep2
    rw [hsl]
    simp [scenLoop, List.lookup]

/-- Witness for `C2_failure_checkpoint_amended` at concrete inputs. -/
theorem C2_failure_checkpoint_amended_witness :
    (let pstep : String → List String → Except String String :=
       fun _ _ => .error "b1";
     let sstep : String → List String → Except String (List String) :=
       fun _ _ => .error "b2";
     ((planningLoop pstep [("2015", ["https://e.com/a"])] [] 0).1.lookup "2015"
         = none) ∧
     (∀ pstep2 : String → List String → Except String String,
         pstep2 "2015" ["https://e.com/a"] = .ok "ok1" →
         ((planningLoop pstep2 [("2015", ["https://e.com/a"])]
             (planningLoop pstep [("2015", ["https://e.com/a"])] [] 0).1 0).1.lookup
             "2015" = some "ok1")) ∧
     ((scenLoop sstep [("2015", ["https://e.com/b"])] [] 0).1.lookup "2015"
         = some { identified_scenarios := [], total_scenario_count := 0,
                  error := some "b2" }) ∧
     (∀ sstep2 : String → List String → Except String (List String),
         (scenLoop sstep2 [("2015", ["https://e.com/b"])]
             (scenLoop sstep [("2015", ["https://e.com/b"])] [] 0).1 0).2 = 0)) :=
  C2_failure_checkpoint_amended (fun _ _ => .error "b1") (fun _ _ => .error "b2")
    "2015" ["https://e.com/a"] ["https://e.com/b"] "b1" "b2" "ok1" rfl rfl
    (by decide)

/-- **C3** (counterexample).  On the claim's input URL the classifier does
not unwrap anything: the code recognizes only the literal host marker
`web.archive.org`, so `archive.example` is parsed directly and the result is
host `archive.example` with the whole wrapped path as `path_and_query` — not
`shop.example` with `/sale?x=1`. -/
theorem C3_archive_unwrap_counterexample :
    urlRealParts "https://archive.example/web/20210615000000/http:/shop.example/sale?x=1"
        = ("archive.example", "/web/20210615000000/http:/shop.example/sale?x=1") ∧
    urlRealParts "https://archive.example/web/20210615000000/http:/shop.example/sale?x=1"
        ≠ ("shop.example", "/sale?x=1") := by
  refine ⟨by decide, by decide⟩

/-- **C3** (amended).  For a `web.archive.org` URL whose embedded URL has an
intact `http://` separator, normalization yields host `shop.example` and
path_and_query `/sale?x=1`.  The single-slash malformation is never
repaired: the extraction regex `/web/\d+/(https?://.*)` itself demands `://`,
so with `http:/` the extraction fails and the URL degrades to an empty
candidate host with the full original string as `real_part` (the repair
branch in the source is unreachable). -/
theorem C3_archive_unwrap_amended :
    urlRealParts "https://web.archive.org/web/20210615000000/http://shop.example/sale?x=1"
        = ("shop.example", "/sale?x=1") ∧
    urlRealParts "https://web.archive.org/web/20210615000000/http:/shop.example/sale?x=1"
        = ("", "https://web.archive.org/web/20210615000000/http:/shop.example/sale?x=1") := by
  refine ⟨by decide, by decide⟩

/-- **C4** (counterexample).  `reconcile([], valid=[u1..u20], enforce=true)`
does return the first 10 valid URLs, but no field of the returned result
records that the fallback was used: the result dictionary's keys are exactly
`analysisResultKeys` (transcribed from the source) and `fallback_used` is
not among them — the fallback is only logged.  The overlap count (computed
before the fallback) is 0. -/
theorem C4_no_fallback_flag_counterexample :
    (optimizeCrawlStrategy [] validTwenty "2015" (some true) "t0").recommended_crawl_pages
        = validTwenty.take 10 ∧
    (optimizeCrawlStrategy [] validTwenty "2015" (some true) "t0").recommended_in_valid_overlap
        = 0 ∧
    "fallback_used" ∉ analysisResultKeys := by
  refine ⟨by decide, by decide, by decide⟩

/-- **C4** (amended).  Whenever the deduplicated (and possibly
membership-filtered) candidate list is empty, the final list is the first 10
`valid_urls` in original order; the result carries the final list, the
overlap count (which is then 0, being computed before the fallback) and the
enforcement flag, but no fallback indicator of any kind. -/
theorem C4_selection_fallback (candidates validUrls : List String)
    (year now : String) (enf : Option Bool)
    (h : dedupPreserve (filteredCandidates (enf.getD true) candidates validUrls) = []) :
    (optimizeCrawlStrategy candidates validUrls year enf now).recommended_crawl_pages
        = validUrls.take 10 ∧
    (optimizeCrawlStrategy candidates validUrls year enf now).recommended_in_valid_overlap
        = 0 ∧
    (optimizeCrawlStrategy candidates validUrls year enf now).enforce_recommended_in_valid
        = enf.getD true ∧
    "fallback_used" ∉ analysisResultKeys := by
  refine ⟨?_, ?_, rfl, by decide⟩ <;> simp [optimizeCrawlStrategy, h]

/-- Witness for `C4_selection_fallback` at the claim's example input. -/
theorem C4_selection_fallback_witness :
    (optimizeCrawlStrategy [] validTwenty "2016" (some true) "t1").recommended_crawl_pages
        = validTwenty.take 10 ∧
    (optimizeCrawlStrategy [] validTwenty "2016" (some true) "t1").recommended_in_valid_overlap
        = 0 ∧
    (optimizeCrawlStrategy [] validTwenty "2016" (some true) "t1").enforce_recommended_in_valid
        = (some true).getD true ∧
    "fallback_used" ∉ analysisResultKeys :=
  C4_selection_fallback [] validTwenty "2016" "t1" (some true) (by decide)

/-- **C5** (counterexample).  Re-running the planning stage with the
document of a completed run performs zero transition calls and reproduces
the same `yearly_analysis_results`, but the persisted document is NOT
identical to the first run's: `_write_planning_file` runs again at the end
and refreshes `export_time`. -/
theorem C5_rerun_counterexample :
    (let step : String → List String → Except String String :=
       fun _ _ => .ok "planned";
     let run1 := generateLlmPlanning step [("2015", ["https://e.com/a"])] [] "t1" "co";
     let run2 := generateLlmPlanning step [("2015", ["https://e.com/a"])]
       run1.1.yearly_analysis_results "t2" "co";
     run2.2 = 0 ∧
       run2.1.yearly_analysis_results = run1.1.yearly_analysis_results ∧
       run2.1 ≠ run1.1) := by
  decide

/-- **C5** (amended).  When every period of the input map is already present
in the loaded results, the planning stage performs zero
classify/select/optimize transition calls and keeps `yearly_analysis_results`
identical; the written document differs from the previous one only in its
refreshed `export_time` field. -/
theorem C5_resume_idempotent {V : Type}
    (step : String → List String → Except String V)
    (yearLinksMap : List (String × List String)) (existing : List (String × V))
    (now company : String)
    (h : ∀ p ∈ yearLinksMap, (existing.lookup p.1).isSome) :
    generateLlmPlanning step yearLinksMap existing now company
      = (writePlanningFile now company existing, 0) := by
  unfold generateLlmPlanning
  rw [planningLoop_skips_present step yearLinksMap existing 0 h]

/-- Witness for `C5_resume_idempotent` at concrete inputs. -/
theorem C5_resume_idempotent_witness :
    generateLlmPlanning (fun _ _ => (.ok "planned" : Except String String))
        [("2015", ["https://e.com/a"])] [("2015", "done")] "t2" "co"
      = (writePlanningFile "t2" "co" [("2015", "done")], 0) :=
  C5_resume_idempotent (fun _ _ => .ok "planned") [("2015", ["https://e.com/a"])]
    [("2015", "done")] "t2" "co" (by decide)

/-- **C6** (confirmed).  The compiled matcher list is sorted by specificity
(original pattern length) descending before any classification, the sort is
stable (each specificity class keeps its taxonomy encounter order), and on
the claim's example the classifier assigns `/product/featured` the type
owning the longer literal pattern.  (The literal `/product/*` is 10
characters, not the 9 the claim quotes; the ordering is unaffected.) -/
theorem C6_specificity_order :
    (∀ nested : List (String × List PageType),
        (compileCoreTypePatterns nested).Pairwise
          (fun a b => b.specificity ≤ a.specificity)) ∧
    (∀ (nested : List (String × List PageType)) (k : Nat),
        (compileCoreTypePatterns nested).filter (fun m => m.specificity == k)
          = (compileEntries nested).filter (fun m => m.specificity == k)) ∧
    classifyCandidateUrls (compileCoreTypePatterns demoTaxonomy)
        ["https://shop.example/product/featured"] ""
      = [{ url := "https://shop.example/product/featured",
           customer_journey_stage := "Decision Stage",
           type_name := "Featured Product" }] := by
  refine ⟨fun nested => pairwise_sortBySpecDesc _,
    fun nested k => filter_sortBySpecDesc k _, by decide⟩

/-- **C7** (confirmed).  The classifier is the `filterMap` of the per-URL
first-match function over the input links: each link contributes at most one
entry `(url, stage, type_name)` given by the first matcher (in sorted list
order, via `List.find?`) whose regex matches its `path_and_query`, links
matched by no matcher (or dropped by the host filter) contribute nothing,
and the output length never exceeds the input length. -/
theorem C7_first_match_wins (compiled : List CompiledMatcher) (links : List String)
    (homepageUrl : String) :
    classifyCandidateUrls compiled links homepageUrl
      = links.filterMap (classifyOne compiled (deriveHomeHost homepageUrl)) ∧
    (classifyCandidateUrls compiled links homepageUrl).length ≤ links.length := by
  have h := classifyCandidateUrls_eq_filterMap compiled links homepageUrl
  exact ⟨h, h ▸ List.length_filterMap_le _ _⟩

/-- **C8** (confirmed).  `_classify_candidate_urls` mutates no planner
state (the returned state is the input state) and is deterministic: the
output depends only on the compiled pattern list and the link/home inputs —
two invocations with equal compiled patterns (even with different year tags,
which only feed logging) produce identical output. -/
theorem C8_classifier_pure (s1 s2 : PlannerState) (year1 year2 : String)
    (links : List String) (homepageUrl : String)
    (hp : s1.compiledPatterns = s2.compiledPatterns) :
    (classifyMethod s1 year1 links homepageUrl).1 = s1 ∧
    (classifyMethod s1 year1 links homepageUrl).2
      = (classifyMethod s2 year2 links homepageUrl).2 := by
  exact ⟨rfl, by simp [classifyMethod, hp]⟩

/-- Witness for `C8_classifier_pure` at concrete inputs. -/
theorem C8_classifier_pure_witness :
    (classifyMethod { compiledPatterns := [] } "2015" ["https://e.com/a"] "").1
        = { compiledPatterns := [] } ∧
    (classifyMethod { compiledPatterns := [] } "2015" ["https://e.com/a"] "").2
      = (classifyMethod { compiledPatterns := [] } "2016" ["https://e.com/a"] "").2 :=
  C8_classifier_pure { compiledPatterns := [] } { compiledPatterns := [] }
    "2015" "2016" ["https://e.com/a"] "" rfl

/-- **C9** (confirmed).  `generate_llm_planning` invokes the classifier
without a homepage URL, so the derived home host is the empty string and the
cross-domain exclusion never fires: the result is exactly the first-match
`filterMap` with no host condition — every link matching some compiled
pattern appears, regardless of host. -/
theorem C9_no_home_no_filter (s : PlannerState) (year : String) (links : List String) :
    deriveHomeHost "" = "" ∧
    (classifyMethod s year links "").2
      = links.filterMap (fun url =>
          (s.compiledPatterns.find? (fun m => reMatch m.toks (urlRealParts url).2)).map
            (fun m => { url := url, customer_journey_stage := m.stage,
                        type_name := m.type_name })) := by
  refine ⟨rfl, ?_⟩
  show classifyCandidateUrls s.compiledPatterns links "" = _
  rw [classifyCandidateUrls_eq_filterMap]
  have hfun : classifyOne s.compiledPatterns (deriveHomeHost "")
      = fun url =>
          (s.compiledPatterns.find? (fun m => reMatch m.toks (urlRealParts url).2)).map
            (fun m => ({ url := url, customer_journey_stage := m.stage,
                         type_name := m.type_name } : ClassifiedLink)) := by
    funext url
    simp [classifyOne, deriveHomeHost]
  rw [hfun]

/-- **C10** (confirmed).  `discover_internal_links` always returns a list
containing the homepage URL (hence never an empty list), and when fetching
or parsing the homepage raises, the `except` handler returns exactly
`[homepage_url]` — no exception propagates. -/
theorem C10_discovery_total (uj : String → String)
    (fetched : Except String (List String)) (homepageUrl : String) (maxLinks : Nat) :
    homepageUrl ∈ discoverInternalLinks uj fetched homepageUrl maxLinks ∧
    discoverInternalLinks uj fetched homepageUrl maxLinks ≠ [] ∧
    (∀ e, discoverInternalLinks uj (.error e) homepageUrl maxLinks = [homepageUrl]) := by
  have hmem : homepageUrl ∈ discoverInternalLinks uj fetched homepageUrl maxLinks := by
    cases fetched with
    | error e => simp [discoverInternalLinks]
    | ok hrefs =>
      exact mem_discoverLoop _ _ _ hrefs [homepageUrl] _ (List.mem_cons_self _ _)
  exact ⟨hmem, List.ne_nil_of_mem hmem, fun e => rfl⟩
